import Mathlib

/-
Verification of the raster/vector processing engine.

Shallow embedding of the engine's data model and operations:
  - exceptions.py : the exception class hierarchy, plus the Python builtin
    exception classes the engine raises, modelled by `ExcCls`; a propagated
    error is a `PyError`, recording the class of the raised exception and,
    when the raise site wraps another exception's message, the class of the
    wrapped exception.
  - data_models.py : `ProjectionInfo` and its `to_crs` resolution.
  - raster_processor.py : `clip_raster_with_raster`, `reproject_raster`,
    `resample_raster`, `reclassify_raster`.
  - vector_processor.py : `union_vectors`.

Pixel values and coordinates are rationals (numpy float arithmetic on the
values the theorems touch is exact comparison and copying, never rounding),
band data is a list of pixel values, and a multi-band raster is a list of
bands.  Fallible operations return `Except PyError`.
-/

/-! ## Exception model (src/exceptions.py and the Python builtins used) -/

/-- Exception classes: the five classes of exceptions.py plus the Python
builtin classes raised by the engine code. -/
inductive ExcCls where
  | exception
  | gisProcessingError
  | projectionError
  | dataFormatError
  | geometryError
  | fileAccessError
  | valueError
  | fileNotFoundError
  | zeroDivisionError
deriving DecidableEq, Repr

/-- Immediate superclass, as declared in exceptions.py; the builtins are
subclasses of `Exception` (their intermediate builtin bases are irrelevant
to the engine and collapsed). -/
def ExcCls.parent : ExcCls → Option ExcCls
  | .exception => none
  | .gisProcessingError => some .exception
  | .projectionError => some .gisProcessingError
  | .dataFormatError => some .gisProcessingError
  | .geometryError => some .gisProcessingError
  | .fileAccessError => some .gisProcessingError
  | .valueError => some .exception
  | .fileNotFoundError => some .exception
  | .zeroDivisionError => some .exception

/-- Ancestor chain of a class, up to the given depth. -/
def ExcCls.ancestorsAux : Nat → ExcCls → List ExcCls
  | 0, c => [c]
  | n + 1, c =>
    c :: (match c.parent with
          | some p => ExcCls.ancestorsAux n p
          | none => [])

/-- All ancestors of a class, itself included (the hierarchy has depth at
most three). -/
def ExcCls.ancestors (c : ExcCls) : List ExcCls :=
  ExcCls.ancestorsAux 3 c

/-- Python `issubclass`: reflexive, follows the declared parent chain. -/
def ExcCls.subclassOf (c d : ExcCls) : Bool :=
  decide (d ∈ c.ancestors)

/-- Python `except D` catches a raised exception of class `c` exactly when
`c` is a subclass of `D`. -/
def ExcCls.catches (handler raised : ExcCls) : Bool :=
  raised.subclassOf handler

/-- A propagated error: the class of the exception object that reaches the
caller, and, when the raise site wraps another exception into its message
(`raise X(f"... {e}")`), the class of that wrapped exception. -/
structure PyError where
  cls : ExcCls
  wraps : Option ExcCls := none
deriving DecidableEq, Repr

/-! ## List access helpers -/

theorem getD_map_lt (f : α → β) :
    ∀ (l : List α) (i : ℕ), i < l.length → ∀ (d : α) (e : β),
      (l.map f).getD i e = f (l.getD i d)
  | a :: l, 0, _, _, _ => rfl
  | a :: l, i + 1, h, d, e =>
      getD_map_lt f l i (by simpa using h) d e
  | [], i, h, _, _ => absurd h (by simp)

theorem getD_zipWith_lt (f : α → β → γ) :
    ∀ (as : List α) (bs : List β) (i : ℕ), i < as.length → i < bs.length →
      ∀ (da : α) (db : β) (d : γ),
        (List.zipWith f as bs).getD i d = f (as.getD i da) (bs.getD i db)
  | _ :: as, _ :: bs, 0, _, _, _, _, _ => rfl
  | _ :: as, _ :: bs, i + 1, ha, hb, da, db, d =>
      getD_zipWith_lt f as bs i (by simpa using ha) (by simpa using hb) da db d
  | [], _, i, ha, _, _, _, _ => absurd ha (by simp)
  | _ :: _, [], i, _, hb, _, _, _ => absurd hb (by simp)

theorem getD_mem_lt : ∀ (l : List α) (i : ℕ), i < l.length → ∀ (d : α),
    l.getD i d ∈ l
  | a :: l, 0, _, _ => List.mem_cons_self a l
  | a :: l, i + 1, h, d =>
      List.mem_cons_of_mem a (getD_mem_lt l i (by simpa using h) d)
  | [], i, h, _ => absurd h (by simp)

/-! ## Projection resolution (src/data_models.py, ProjectionInfo) -/

/-- Coordinate system info, an optional quadruple exactly as in
data_models.py. -/
structure ProjectionInfo where
  epsg_code : Option ℤ := none
  proj4_string : Option String := none
  wkt_string : Option String := none
  authority : Option String := none
deriving DecidableEq, Repr

/-- Python truthiness of an optional integer field: `None` and `0` are
falsy. -/
def pyTruthyInt : Option ℤ → Bool
  | none => false
  | some n => decide (n ≠ 0)

/-- Python truthiness of an optional string field: `None` and `""` are
falsy. -/
def pyTruthyStr : Option String → Bool
  | none => false
  | some s => decide (s ≠ "")

/-- ProjectionInfo.to_crs: the `if self.epsg_code / elif self.proj4_string /
elif self.wkt_string / return None` chain of data_models.py. -/
def ProjectionInfo.to_crs (p : ProjectionInfo) : Option String :=
  if pyTruthyInt p.epsg_code then
    some ("EPSG:" ++ toString (p.epsg_code.getD 0))
  else if pyTruthyStr p.proj4_string then
    p.proj4_string
  else if pyTruthyStr p.wkt_string then
    p.wkt_string
  else
    none

/-! ## Raster model and clip_raster_with_raster (src/raster_processor.py) -/

/-- A raster as the clip-with-raster-mask operation sees it: its CRS, its
declared nodata value if any, and its band data (band 1 first).  Pixel
values are rationals. -/
structure Raster where
  crs : String
  nodata : Option ℚ
  bands : List (List ℚ)
deriving DecidableEq, Repr

/-- RasterProcessor.clip_raster_with_raster.  A CRS mismatch raises
`ProjectionError`, which the function's own blanket `except Exception`
immediately catches and re-raises wrapped in a plain `GISProcessingError`.
Otherwise `boolean_mask = mask_data != mask_src.nodata` (with an undeclared
mask nodata, numpy's elementwise comparison with `None` is true everywhere,
so nothing is masked) and every band's pixels at masked positions are
overwritten with the source nodata.  When the source declares no nodata the
elementwise write of `None` is dtype-dependent in numpy; the model leaves
such pixels unchanged, a case no theorem below exercises (each assumes a
declared source nodata). -/
def clip_raster_with_raster (src mask_src : Raster) : Except PyError Raster :=
  if src.crs ≠ mask_src.crs then
    .error { cls := .gisProcessingError, wraps := some .projectionError }
  else
    let mask_data := mask_src.bands.headD []
    let boolean_mask := mask_data.map fun m =>
      match mask_src.nodata with
      | some nd => decide (m ≠ nd)
      | none => true
    let src_data := src.bands.map fun band =>
      List.zipWith
        (fun keep v =>
          if keep then v
          else match src.nodata with
               | some nd => nd
               | none => v)
        boolean_mask band
    .ok { src with bands := src_data }

/-! ## Affine transforms and resample_raster -/

/-- An affine transform with rasterio's coefficient order: world x equals
`a * col + b * row + c`, world y equals `d * col + e * row + f`. -/
structure Affine where
  a : ℚ
  b : ℚ
  c : ℚ
  d : ℚ
  e : ℚ
  f : ℚ
deriving DecidableEq, Repr

/-- Composition of affine transforms (matrix product of the associated
3-by-3 matrices), as rasterio's `Affine.__mul__`. -/
def Affine.mul (A B : Affine) : Affine where
  a := A.a * B.a + A.b * B.d
  b := A.a * B.b + A.b * B.e
  c := A.a * B.c + A.b * B.f + A.c
  d := A.d * B.a + A.e * B.d
  e := A.d * B.b + A.e * B.e
  f := A.d * B.c + A.e * B.f + A.f

/-- rasterio's `Affine.scale`. -/
def Affine.scale (sx sy : ℚ) : Affine :=
  { a := sx, b := 0, c := 0, d := 0, e := sy, f := 0 }

/-- Apply a transform to a (column, row) position. -/
def Affine.apply (A : Affine) (col row : ℚ) : ℚ × ℚ :=
  (A.a * col + A.b * row + A.c, A.d * col + A.e * row + A.f)

/-- Python `int()` on an exact value: truncation toward zero. -/
def pyInt (q : ℚ) : ℤ :=
  if q < 0 then -(Rat.floor (-q)) else Rat.floor q

/-- Metadata of the raster entering resample_raster. -/
structure ResampleSrc where
  width : ℕ
  height : ℕ
  transform : Affine
deriving DecidableEq, Repr

/-- Dimensions and transform of the raster written by resample_raster. -/
structure ResampleOut where
  width : ℤ
  height : ℤ
  transform : Affine
deriving DecidableEq, Repr

/-- RasterProcessor.resample_raster, metadata path: `new_width =
int(src.width * scale_factor)` (truncation toward zero), likewise for the
height, and `transform = src.transform * scale(width / new_width, height /
new_height)`.  A zero new dimension makes the division raise
`ZeroDivisionError`, caught and wrapped by the blanket handler.  Pixel
resampling itself is delegated to rasterio's kernel and is outside the
dimension/extent claims. -/
def resample_raster (src : ResampleSrc) (scale_factor : ℚ) :
    Except PyError ResampleOut :=
  let new_width : ℤ := pyInt ((src.width : ℚ) * scale_factor)
  let new_height : ℤ := pyInt ((src.height : ℚ) * scale_factor)
  if new_width = 0 ∨ new_height = 0 then
    .error { cls := .gisProcessingError, wraps := some .zeroDivisionError }
  else
    .ok { width := new_width, height := new_height,
          transform := src.transform.mul
            (Affine.scale ((src.width : ℚ) / (new_width : ℚ))
                          ((src.height : ℚ) / (new_height : ℚ))) }

/-! ## reproject_raster -/

/-- The five resampling kernels of the `resampling_map` in
reproject_raster. -/
inductive Resampling where
  | nearest
  | bilinear
  | cubic
  | average
  | mode
deriving DecidableEq, Repr

/-- Metadata of the raster entering reproject_raster. -/
structure WarpSrc where
  crs : String
  width : ℕ
  height : ℕ
  bounds : ℚ × ℚ × ℚ × ℚ
  count : ℕ
deriving DecidableEq, Repr

/-- The raster written by reproject_raster. -/
structure WarpOut where
  crs : String
  transform : Affine
  width : ℕ
  height : ℕ
  bands : List (List ℚ)
deriving DecidableEq, Repr

/-- RasterProcessor.reproject_raster.  `calculate_default_transform` and the
per-band `reproject` interpolation are rasterio library calls, passed here
as function parameters: the theorem about this definition quantifies over
them, so it holds whatever those library routines compute.  The output
transform, width and height come from `calculate_default_transform` applied
to the source CRS, target CRS, source dimensions and source bounds only;
the chosen kernel is passed only to the per-band interpolation. -/
def reproject_raster
    (calculate_default_transform :
      String → String → ℕ → ℕ → ℚ × ℚ × ℚ × ℚ → Affine × ℕ × ℕ)
    (reprojectBand : Resampling → WarpSrc → Affine → String → ℕ → List ℚ)
    (src : WarpSrc) (target_crs : String) (resampling_method : Resampling) :
    WarpOut :=
  match calculate_default_transform src.crs target_crs src.width src.height
      src.bounds with
  | (transform, width, height) =>
    { crs := target_crs, transform := transform, width := width,
      height := height,
      bands := (List.range src.count).map fun i =>
        reprojectBand resampling_method src transform target_crs i }

/-! ## reclassify_raster -/

/-- One classification rule: a closed value interval and its integer output
class (one entry of the `classification_rules` dict; dict iteration order is
insertion order, so the rule set is a list). -/
structure Rule where
  lo : ℚ
  hi : ℚ
  cls : ℤ
deriving DecidableEq, Repr

/-- The per-rule pixel mask of reclassify_raster: `(data >= min_val) &
(data <= max_val)`, intersected with `data != src.nodata` when the source
declares a nodata value. -/
def ruleMatches (nodata : Option ℚ) (r : Rule) (v : ℚ) : Bool :=
  match nodata with
  | some nd => decide (r.lo ≤ v) && decide (v ≤ r.hi) && decide (v ≠ nd)
  | none => decide (r.lo ≤ v) && decide (v ≤ r.hi)

/-- The `-9999` sentinel reclassify_raster uses as the int32 output nodata. -/
def output_nodata : ℤ := -9999

/-- One iteration of the rule loop: compute the rule's mask, and when its
global pixel count is positive overwrite the masked positions of the
reclassified array with the rule's output class. -/
def applyRule (nodata : Option ℚ) (data : List ℚ) (recl : List ℤ)
    (r : Rule) : List ℤ :=
  let mask := data.map (ruleMatches nodata r)
  if 0 < mask.count true then
    List.zipWith (fun m x => if m then r.cls else x) mask recl
  else
    recl

/-- The `pixels_classified` counter: the sum over the rules of each rule's
global mask pixel count (a pixel matched by several rules is counted once
per rule, as in the source). -/
def pixels_classified (rules : List Rule) (nodata : Option ℚ)
    (data : List ℚ) : ℕ :=
  rules.foldl
    (fun acc r => acc + (data.map (ruleMatches nodata r)).count true) 0

/-- The `classified_mask` recomputed after the rule loop: a pixel is
classified when some rule's mask covers it. -/
def classified_mask (rules : List Rule) (nodata : Option ℚ)
    (data : List ℚ) : List Bool :=
  data.map fun v => rules.any fun r => ruleMatches nodata r v

/-- The pixel array reclassify_raster builds: start from an int32 array
filled with -9999, run the rule loop, reset original-nodata pixels to the
output nodata, then reset unclassified non-nodata pixels to the output
nodata. -/
def reclassifyPixels (rules : List Rule) (nodata : Option ℚ)
    (data : List ℚ) : List ℤ :=
  let afterRules := rules.foldl (applyRule nodata data)
    (data.map fun _ => output_nodata)
  let afterNodata :=
    match nodata with
    | some nd =>
        List.zipWith (fun v x => if v = nd then output_nodata else x)
          data afterRules
    | none => afterRules
  let unclassified :=
    List.zipWith
      (fun v c => !c && (match nodata with
                         | some nd => decide (v ≠ nd)
                         | none => true))
      data (classified_mask rules nodata data)
  List.zipWith (fun u x => if u then output_nodata else x)
    unclassified afterNodata

/-- The raster file reclassify_raster writes: metadata dtype and nodata, and
the single band of reclassified pixels. -/
structure ReclassOut where
  dtype : String
  nodata : ℤ
  pixels : List ℤ
deriving DecidableEq, Repr

/-- Body of reclassify_raster inside the outer try: validate the input path
and the rule set, read the band, classify, fail when zero pixels were
classified, then write (the write may fail, wrapped on the spot in a
`GISProcessingError`).  `input_exists` abstracts `input_path.exists()` and
`write_ok` abstracts success of the GTiff write. -/
def reclassifyBody (input_exists : Bool) (rules : List Rule)
    (nodata : Option ℚ) (data : List ℚ) (write_ok : Bool) :
    Except PyError ReclassOut :=
  if !input_exists then
    .error { cls := .fileNotFoundError }
  else if rules.isEmpty then
    .error { cls := .valueError }
  else if pixels_classified rules nodata data = 0 then
    .error { cls := .valueError }
  else if write_ok then
    .ok { dtype := "int32", nodata := output_nodata,
          pixels := reclassifyPixels rules nodata data }
  else
    .error { cls := .gisProcessingError, wraps := some .exception }

/-- RasterProcessor.reclassify_raster with its outer handler: on success the
output file holds the written raster; on any failure the handler deletes
the output file if it exists (so no partly written file remains) and
re-raises the failure wrapped in a `GISProcessingError`.  The second
component is the final state of the output file. -/
def reclassify_raster (input_exists : Bool) (rules : List Rule)
    (nodata : Option ℚ) (data : List ℚ) (write_ok : Bool) :
    Except PyError Unit × Option ReclassOut :=
  match reclassifyBody input_exists rules nodata data write_ok with
  | .ok f => (.ok (), some f)
  | .error e => (.error { cls := .gisProcessingError, wraps := some e.cls },
                 none)

/-! ## Vector union (src/vector_processor.py) -/

/-- A vector dataset as union_vectors sees it: its CRS (possibly undefined)
and its feature count. -/
structure GeoDataFrame where
  crs : Option String
  n_features : ℕ
deriving DecidableEq, Repr

/-- geopandas `GeoDataFrame.to_crs`: reprojection preserves the feature
count; with an undefined source CRS it raises `ValueError`. -/
def GeoDataFrame.to_crs (g : GeoDataFrame) (target : String) :
    Except PyError GeoDataFrame :=
  match g.crs with
  | none => .error { cls := .valueError }
  | some _ => .ok { crs := some target, n_features := g.n_features }

/-- The loading loop of union_vectors: take the first dataset's CRS as the
target while the target is still undefined, reproject any later dataset
whose CRS differs from the target, and collect the processed datasets.
Returns the processed datasets and the final target CRS. -/
def unionLoop : List GeoDataFrame → Option String → List GeoDataFrame →
    Except PyError (List GeoDataFrame × Option String)
  | [], target_crs, acc => .ok (acc, target_crs)
  | g :: rest, target_crs, acc =>
    match target_crs with
    | none => unionLoop rest g.crs (acc ++ [g])
    | some t =>
      if g.crs ≠ some t then
        match g.to_crs t with
        | .ok g2 => unionLoop rest (some t) (acc ++ [g2])
        | .error e => .error e
      else
        unionLoop rest (some t) (acc ++ [g])

/-- VectorProcessor.union_vectors: run the loading loop, concatenate all
features (`pd.concat`, so the counts add), and stamp the combined frame
with the target CRS.  Any failure inside is wrapped by the blanket handler
into a `GISProcessingError`. -/
def union_vectors (gdfs : List GeoDataFrame) : Except PyError GeoDataFrame :=
  match unionLoop gdfs none [] with
  | .ok (parts, target_crs) =>
      .ok { crs := target_crs,
            n_features := (parts.map GeoDataFrame.n_features).sum }
  | .error e =>
      .error { cls := .gisProcessingError, wraps := some e.cls }

/-! ## Elementwise characterization of reclassifyPixels -/

theorem length_applyRule (nodata : Option ℚ) (data : List ℚ) (recl : List ℤ)
    (r : Rule) (h : recl.length = data.length) :
    (applyRule nodata data recl r).length = data.length := by
  simp only [applyRule]
  split
  · simp [h]
  · exact h

theorem getD_applyRule (nodata : Option ℚ) (data : List ℚ) (recl : List ℤ)
    (r : Rule) (i : ℕ) (hlen : recl.length = data.length)
    (hi : i < data.length) :
    (applyRule nodata data recl r).getD i 0 =
      if ruleMatches nodata r (data.getD i 0) then r.cls
      else recl.getD i 0 := by
  simp only [applyRule]
  split
  · rw [getD_zipWith_lt _ _ _ i (by simpa using hi) (by rw [hlen]; exact hi)
        false 0 0,
      getD_map_lt (ruleMatches nodata r) data i hi 0]
  · rename_i hc
    have h0 : ruleMatches nodata r (data.getD i 0) = false := by
      by_contra hne
      have htrue : ruleMatches nodata r (data.getD i 0) = true := by
        revert hne
        cases ruleMatches nodata r (data.getD i 0) <;> simp
      have hmem : true ∈ data.map (ruleMatches nodata r) :=
        List.mem_map.mpr ⟨data.getD i 0, getD_mem_lt data i hi 0, htrue⟩
      exact hc (List.count_pos_iff.mpr hmem)
    rw [h0]
    simp

theorem length_foldl_applyRule (nodata : Option ℚ) (data : List ℚ) :
    ∀ (rules : List Rule) (recl : List ℤ), recl.length = data.length →
      (rules.foldl (applyRule nodata data) recl).length = data.length
  | [], _, h => h
  | r :: rules, recl, h => by
      simp only [List.foldl_cons]
      exact length_foldl_applyRule nodata data rules _
        (length_applyRule nodata data recl r h)

theorem getD_foldl_applyRule (nodata : Option ℚ) (data : List ℚ) :
    ∀ (rules : List Rule) (recl : List ℤ), recl.length = data.length →
      ∀ i, i < data.length →
      (rules.foldl (applyRule nodata data) recl).getD i 0 =
        rules.foldl
          (fun acc r =>
            if ruleMatches nodata r (data.getD i 0) then r.cls else acc)
          (recl.getD i 0)
  | [], _, _, _, _ => rfl
  | r :: rules, recl, hlen, i, hi => by
      simp only [List.foldl_cons]
      rw [getD_foldl_applyRule nodata data rules
            (applyRule nodata data recl r)
            (length_applyRule nodata data recl r hlen) i hi,
          getD_applyRule nodata data recl r i hlen hi]

/-- The output class the rule loop assigns to one pixel value: fold the
rules left to right over the initial -9999, each matching rule overwriting
the accumulator with its class (so the last matching rule wins). -/
def pixelValue (rules : List Rule) (nodata : Option ℚ) (v : ℚ) : ℤ :=
  rules.foldl (fun acc r => if ruleMatches nodata r v then r.cls else acc)
    output_nodata

theorem foldl_no_match (nodata : Option ℚ) (v : ℚ) :
    ∀ (l : List Rule) (acc : ℤ),
      (∀ r ∈ l, ruleMatches nodata r v = false) →
      l.foldl (fun acc r => if ruleMatches nodata r v then r.cls else acc)
        acc = acc
  | [], _, _ => rfl
  | r :: l, acc, h => by
      have h1 := h r (List.mem_cons_self r l)
      simp only [List.foldl_cons, h1, Bool.false_eq_true, if_false]
      exact foldl_no_match nodata v l acc
        fun r2 hr2 => h r2 (List.mem_cons_of_mem r hr2)

theorem ruleMatches_nodata (r : Rule) (nd : ℚ) :
    ruleMatches (some nd) r nd = false := by
  simp [ruleMatches]

theorem pixelValue_no_match (rules : List Rule) (nodata : Option ℚ) (v : ℚ)
    (h : ∀ r ∈ rules, ruleMatches nodata r v = false) :
    pixelValue rules nodata v = output_nodata :=
  foldl_no_match nodata v rules output_nodata h

theorem length_classified_mask (rules : List Rule) (nodata : Option ℚ)
    (data : List ℚ) :
    (classified_mask rules nodata data).length = data.length := by
  simp only [classified_mask, List.length_map]

theorem length_reclassifyPixels (rules : List Rule) (nodata : Option ℚ)
    (data : List ℚ) :
    (reclassifyPixels rules nodata data).length = data.length := by
  have h1 : (rules.foldl (applyRule nodata data)
      (data.map fun _ => output_nodata)).length = data.length :=
    length_foldl_applyRule nodata data rules _ (by simp only [List.length_map])
  rcases nodata with _ | nd <;>
    simp only [reclassifyPixels, List.length_zipWith, length_classified_mask,
      h1, Nat.min_self]

theorem getD_reclassifyPixels (rules : List Rule) (nodata : Option ℚ)
    (data : List ℚ) (i : ℕ) (hi : i < data.length) :
    (reclassifyPixels rules nodata data).getD i 0 =
      pixelValue rules nodata (data.getD i 0) := by
  have hlen0 : (data.map fun _ : ℚ => output_nodata).length = data.length :=
    by simp
  have hR : (rules.foldl (applyRule nodata data)
      (data.map fun _ => output_nodata)).length = data.length :=
    length_foldl_applyRule nodata data rules _ hlen0
  have hfold := getD_foldl_applyRule nodata data rules
    (data.map fun _ => output_nodata) hlen0 i hi
  rw [getD_map_lt _ data i hi 0] at hfold
  have hcmask : (classified_mask rules nodata data).getD i false =
      rules.any fun r => ruleMatches nodata r (data.getD i 0) := by
    simp only [classified_mask]
    rw [getD_map_lt _ data i hi 0]
  rcases nodata with _ | nd
  · simp only [reclassifyPixels]
    rw [getD_zipWith_lt _ _ _ i
        (by rw [List.length_zipWith, length_classified_mask, Nat.min_self]
            exact hi)
        (by rw [hR]; exact hi) false 0 0,
      getD_zipWith_lt _ _ _ i hi
        (by rw [length_classified_mask]; exact hi) 0 false false,
      hcmask, hfold]
    rcases hany : rules.any fun r => ruleMatches none r (data.getD i 0) with
      _ | _
    · have hnone : ∀ r ∈ rules, ruleMatches none r (data.getD i 0) = false :=
        by
        intro r hr
        have hx := List.any_eq_false.mp hany r hr
        revert hx
        cases ruleMatches none r (data.getD i 0) <;> simp
      simp only [Bool.not_false, Bool.and_true]
      rw [if_pos trivial]
      exact (pixelValue_no_match rules none _ hnone).symm
    · simp only [Bool.not_true, Bool.and_true]
      rw [if_neg (by simp)]
      rfl
  · simp only [reclassifyPixels]
    rw [getD_zipWith_lt _ _ _ i
        (by rw [List.length_zipWith, length_classified_mask, Nat.min_self]
            exact hi)
        (by rw [List.length_zipWith, hR, Nat.min_self]; exact hi) false 0 0,
      getD_zipWith_lt _ _ _ i hi
        (by rw [length_classified_mask]; exact hi) 0 false false,
      hcmask,
      getD_zipWith_lt _ _ _ i hi (by rw [hR]; exact hi) 0 0 0,
      hfold]
    by_cases hv : data.getD i 0 = nd
    · have hnone : ∀ r ∈ rules,
          ruleMatches (some nd) r (data.getD i 0) = false := by
        intro r _
        rw [hv]
        exact ruleMatches_nodata r nd
      rw [if_neg (by rw [hv]; simp), if_pos hv]
      exact (pixelValue_no_match rules (some nd) _ hnone).symm
    · rcases hany : rules.any
          fun r => ruleMatches (some nd) r (data.getD i 0) with _ | _
      · have hnone : ∀ r ∈ rules,
            ruleMatches (some nd) r (data.getD i 0) = false := by
          intro r hr
          have hx := List.any_eq_false.mp hany r hr
          revert hx
          cases ruleMatches (some nd) r (data.getD i 0) <;> simp
        rw [if_pos (by
          simp only [Bool.not_false, Bool.true_and, decide_eq_true_eq]
          exact hv)]
        exact (pixelValue_no_match rules (some nd) _ hnone).symm
      · rw [if_neg (by simp), if_neg hv]
        rfl

theorem getD_eq_getElem_lt (l : List α) (d : α) {i : ℕ} (h : i < l.length) :
    l.getD i d = l[i] := by
  rw [List.getD_eq_getElem?_getD, List.getElem?_eq_getElem h]
  rfl

theorem bool_eq_false {b : Bool} (h : ¬b = true) : b = false := by
  cases b
  · rfl
  · exact absurd rfl h

/-! ## Inversion lemmas for reclassify_raster -/

theorem reclassifyBody_ok_elim (input_exists : Bool) (rules : List Rule)
    (nodata : Option ℚ) (data : List ℚ) (write_ok : Bool) (out : ReclassOut)
    (h : reclassifyBody input_exists rules nodata data write_ok = .ok out) :
    out = ⟨"int32", output_nodata, reclassifyPixels rules nodata data⟩ ∧
      pixels_classified rules nodata data ≠ 0 := by
  unfold reclassifyBody at h
  split at h
  · exact absurd h (by simp)
  · split at h
    · exact absurd h (by simp)
    · split at h
      · exact absurd h (by simp)
      · split at h
        · rename_i h1 h2 h3 h4
          injection h with h5
          exact ⟨h5.symm, h3⟩
        · exact absurd h (by simp)

theorem reclassify_ok_body (input_exists : Bool) (rules : List Rule)
    (nodata : Option ℚ) (data : List ℚ) (write_ok : Bool) (out : ReclassOut)
    (h : reclassify_raster input_exists rules nodata data write_ok =
      (.ok (), some out)) :
    reclassifyBody input_exists rules nodata data write_ok = .ok out := by
  unfold reclassify_raster at h
  split at h
  · rename_i f heq
    simp only [Prod.mk.injEq] at h
    obtain ⟨-, h2⟩ := h
    injection h2 with h3
    exact h3 ▸ heq
  · exact absurd h (by simp)

theorem reclassify_ok_inv (input_exists : Bool) (rules : List Rule)
    (nodata : Option ℚ) (data : List ℚ) (write_ok : Bool) (out : ReclassOut)
    (h : reclassify_raster input_exists rules nodata data write_ok =
      (.ok (), some out)) :
    out = ⟨"int32", output_nodata, reclassifyPixels rules nodata data⟩ ∧
      pixels_classified rules nodata data ≠ 0 :=
  reclassifyBody_ok_elim input_exists rules nodata data write_ok out
    (reclassify_ok_body input_exists rules nodata data write_ok out h)

theorem reclassify_zero_fails (input_exists : Bool) (rules : List Rule)
    (nodata : Option ℚ) (data : List ℚ) (write_ok : Bool)
    (hin : input_exists = true)
    (hz : pixels_classified rules nodata data = 0) :
    reclassify_raster input_exists rules nodata data write_ok =
      (.error ⟨.gisProcessingError, some .valueError⟩, none) := by
  subst hin
  unfold reclassify_raster reclassifyBody
  simp only [Bool.not_true, Bool.false_eq_true, if_false, hz]
  cases hr : rules.isEmpty <;> rfl

theorem reclassify_error_no_file (input_exists : Bool) (rules : List Rule)
    (nodata : Option ℚ) (data : List ℚ) (write_ok : Bool) (e : PyError)
    (st : Option ReclassOut)
    (h : reclassify_raster input_exists rules nodata data write_ok =
      (.error e, st)) :
    st = none := by
  unfold reclassify_raster at h
  split at h
  · exact absurd h (by simp)
  · simp only [Prod.mk.injEq] at h
    exact h.2.symm

/-! ## Rule order: last writer wins, and order only matters on overlap -/

theorem ruleMatches_bounds (nodata : Option ℚ) (r : Rule) (v : ℚ)
    (h : ruleMatches nodata r v = true) : r.lo ≤ v ∧ v ≤ r.hi := by
  rcases nodata with _ | nd
  · simp only [ruleMatches, Bool.and_eq_true, decide_eq_true_eq] at h
    exact h
  · simp only [ruleMatches, Bool.and_eq_true, decide_eq_true_eq] at h
    exact h.1

/-- Non-overlapping rule set: any two distinct rules have disjoint closed
intervals. -/
def NonOverlapping (rules : List Rule) : Prop :=
  ∀ r1 ∈ rules, ∀ r2 ∈ rules, r1 ≠ r2 → r1.hi < r2.lo ∨ r2.hi < r1.lo

theorem pixelValue_perm (rules rules2 : List Rule) (nodata : Option ℚ)
    (v : ℚ) (hdisj : NonOverlapping rules) (hperm : rules.Perm rules2) :
    pixelValue rules nodata v = pixelValue rules2 nodata v := by
  unfold pixelValue
  refine hperm.foldl_eq' ?_ output_nodata
  intro x hx y hy z
  by_cases hxv : ruleMatches nodata x v = true <;>
    by_cases hyv : ruleMatches nodata y v = true
  · by_cases hxy : x = y
    · subst hxy
      rfl
    · exfalso
      obtain ⟨hx1, hx2⟩ := ruleMatches_bounds nodata x v hxv
      obtain ⟨hy1, hy2⟩ := ruleMatches_bounds nodata y v hyv
      rcases hdisj x hx y hy hxy with hlt | hlt <;> linarith
  · simp [hxv, bool_eq_false hyv]
  · simp [bool_eq_false hxv, hyv]
  · simp [bool_eq_false hxv, bool_eq_false hyv]

theorem reclassifyPixels_perm (rules rules2 : List Rule) (nodata : Option ℚ)
    (data : List ℚ) (hdisj : NonOverlapping rules)
    (hperm : rules.Perm rules2) :
    reclassifyPixels rules nodata data =
      reclassifyPixels rules2 nodata data := by
  apply List.ext_getElem
  · rw [length_reclassifyPixels, length_reclassifyPixels]
  · intro i h1 h2
    have hi : i < data.length := by
      rw [length_reclassifyPixels] at h1
      exact h1
    rw [← getD_eq_getElem_lt _ 0 h1, ← getD_eq_getElem_lt _ 0 h2,
      getD_reclassifyPixels rules nodata data i hi,
      getD_reclassifyPixels rules2 nodata data i hi,
      pixelValue_perm rules rules2 nodata _ hdisj hperm]

/-! ## Claims about reclassification -/

/-- Claim C1: in any successful reclassification, a pixel whose value falls
in more than one rule interval receives the output class of the matching
rule listed last in iteration order (last-writer-wins, stated as: if the
rule list splits as `pre ++ r :: post`, `r` matches the pixel and nothing
in `post` does, the pixel gets `r`'s class); and for a non-overlapping rule
set the output pixels are unchanged under any permutation of the rule list,
so each pixel's class depends only on which interval contains its value,
not on declaration order. -/
theorem spec2proof_C1
    (input_exists : Bool) (rules : List Rule) (nodata : Option ℚ)
    (data : List ℚ) (write_ok : Bool) (out : ReclassOut)
    (h : reclassify_raster input_exists rules nodata data write_ok =
      (.ok (), some out)) :
    (∀ i, i < data.length → ∀ pre r post, rules = pre ++ r :: post →
        ruleMatches nodata r (data.getD i 0) = true →
        (∀ r2 ∈ post, ruleMatches nodata r2 (data.getD i 0) = false) →
        out.pixels.getD i 0 = r.cls) ∧
    (∀ rules2 out2, NonOverlapping rules → rules.Perm rules2 →
        reclassify_raster input_exists rules2 nodata data write_ok =
          (.ok (), some out2) →
        out2.pixels = out.pixels) := by
  have hout := (reclassify_ok_inv input_exists rules nodata data write_ok
    out h).1
  constructor
  · intro i hi pre r post hsplit hmatch hpost
    rw [hout]
    show (reclassifyPixels rules nodata data).getD i 0 = r.cls
    rw [getD_reclassifyPixels rules nodata data i hi, hsplit]
    unfold pixelValue
    rw [List.foldl_append]
    simp only [List.foldl_cons, hmatch, if_true]
    exact foldl_no_match nodata _ post r.cls hpost
  · intro rules2 out2 hdisj hperm h2
    have hout2 := (reclassify_ok_inv input_exists rules2 nodata data
      write_ok out2 h2).1
    rw [hout, hout2]
    show reclassifyPixels rules2 nodata data =
      reclassifyPixels rules nodata data
    exact (reclassifyPixels_perm rules rules2 nodata data hdisj hperm).symm

theorem spec2proof_C1_witness :
    (ReclassOut.mk "int32" (-9999) [2]).pixels.getD 0 0 = Rule.cls ⟨5, 20, 2⟩ ∧
    (ReclassOut.mk "int32" (-9999) [1]).pixels =
      (ReclassOut.mk "int32" (-9999) [1]).pixels := by
  constructor
  · exact (spec2proof_C1 true [⟨0, 10, 1⟩, ⟨5, 20, 2⟩] none [7] true
      ⟨"int32", -9999, [2]⟩ rfl).1 0 (by decide) [⟨0, 10, 1⟩] ⟨5, 20, 2⟩ []
      rfl (by decide) (fun r2 hr2 => absurd hr2 (List.not_mem_nil r2))
  · exact (spec2proof_C1 true [⟨0, 4, 1⟩, ⟨6, 9, 2⟩] none [3] true
      ⟨"int32", -9999, [1]⟩ rfl).2 [⟨6, 9, 2⟩, ⟨0, 4, 1⟩]
      ⟨"int32", -9999, [1]⟩ (by unfold NonOverlapping; decide)
      (List.Perm.swap (⟨6, 9, 2⟩ : Rule) (⟨0, 4, 1⟩ : Rule) []) rfl

/-- Claim C5, amended: in every successful reclassification the output band
has dtype int32 (a fixed-width signed integer) with the fixed nodata
sentinel -9999, pixels equal to the source nodata map to the sentinel, and
pixels matched by no rule map to the sentinel (so the two cases are
indistinguishable in the output).  The sentinel is a fixed constant, not a
value chosen apart from the rule classes: it is distinct from every valid
output class only when no rule maps to -9999 (see the counterexample). -/
theorem spec2proof_C5
    (input_exists : Bool) (rules : List Rule) (nodata : Option ℚ)
    (data : List ℚ) (write_ok : Bool) (out : ReclassOut)
    (h : reclassify_raster input_exists rules nodata data write_ok =
      (.ok (), some out)) :
    out.dtype = "int32" ∧ out.nodata = output_nodata ∧
    (∀ i, i < data.length → ∀ nd, nodata = some nd → data.getD i 0 = nd →
        out.pixels.getD i 0 = output_nodata) ∧
    (∀ i, i < data.length →
        (∀ r ∈ rules, ruleMatches nodata r (data.getD i 0) = false) →
        out.pixels.getD i 0 = output_nodata) := by
  have hout := (reclassify_ok_inv input_exists rules nodata data write_ok
    out h).1
  refine ⟨by rw [hout], by rw [hout], ?_, ?_⟩
  · intro i hi nd hnd hv
    rw [hout]
    show (reclassifyPixels rules nodata data).getD i 0 = output_nodata
    rw [getD_reclassifyPixels rules nodata data i hi]
    subst hnd
    exact pixelValue_no_match rules (some nd) _
      (fun r _ => by rw [hv]; exact ruleMatches_nodata r nd)
  · intro i hi hnone
    rw [hout]
    show (reclassifyPixels rules nodata data).getD i 0 = output_nodata
    rw [getD_reclassifyPixels rules nodata data i hi]
    exact pixelValue_no_match rules nodata _ hnone

theorem spec2proof_C5_witness :
    (ReclassOut.mk "int32" (-9999) [-9999, -9999, 7]).dtype = "int32" ∧
    (ReclassOut.mk "int32" (-9999) [-9999, -9999, 7]).nodata =
      output_nodata ∧
    (ReclassOut.mk "int32" (-9999) [-9999, -9999, 7]).pixels.getD 0 0 =
      output_nodata ∧
    (ReclassOut.mk "int32" (-9999) [-9999, -9999, 7]).pixels.getD 1 0 =
      output_nodata := by
  refine ⟨?_, ?_, ?_, ?_⟩
  · exact (spec2proof_C5 true [⟨1, 10, 7⟩] (some 0) [0, 100, 5] true
      ⟨"int32", -9999, [-9999, -9999, 7]⟩ rfl).1
  · exact (spec2proof_C5 true [⟨1, 10, 7⟩] (some 0) [0, 100, 5] true
      ⟨"int32", -9999, [-9999, -9999, 7]⟩ rfl).2.1
  · exact (spec2proof_C5 true [⟨1, 10, 7⟩] (some 0) [0, 100, 5] true
      ⟨"int32", -9999, [-9999, -9999, 7]⟩ rfl).2.2.1 0 (by decide) 0 rfl rfl
  · exact (spec2proof_C5 true [⟨1, 10, 7⟩] (some 0) [0, 100, 5] true
      ⟨"int32", -9999, [-9999, -9999, 7]⟩ rfl).2.2.2 1 (by decide) (by decide)

/-- Claim C5, counterexample to the distinctness clause: a successful
reclassification whose single rule maps its interval to -9999 itself.  The
matched pixel's written class equals the output nodata sentinel, so the
sentinel is not distinct from all valid output classes. -/
theorem spec2proof_C5_cx :
    reclassify_raster true [⟨0, 10, -9999⟩] none [5] true =
      (.ok (), some ⟨"int32", output_nodata, [-9999]⟩) ∧
    Rule.cls ⟨0, 10, -9999⟩ = output_nodata :=
  ⟨rfl, rfl⟩

/-- Claim C6: with an existing input, a run in which zero pixels match any
rule fails with a validation error (a ValueError wrapped by the outer
handler into the raised GISProcessingError) and leaves no output file; and
on any failure whatsoever the final state of the output file is absent, so
no partly written output remains. -/
theorem spec2proof_C6
    (input_exists : Bool) (rules : List Rule) (nodata : Option ℚ)
    (data : List ℚ) (write_ok : Bool) :
    (input_exists = true → pixels_classified rules nodata data = 0 →
      reclassify_raster input_exists rules nodata data write_ok =
        (.error ⟨.gisProcessingError, some .valueError⟩, none)) ∧
    (∀ e st, reclassify_raster input_exists rules nodata data write_ok =
        (.error e, st) → st = none) := by
  constructor
  · intro hin hz
    exact reclassify_zero_fails input_exists rules nodata data write_ok hin hz
  · intro e st h
    exact reclassify_error_no_file input_exists rules nodata data write_ok
      e st h

theorem spec2proof_C6_witness :
    reclassify_raster true [⟨0, 1, 5⟩] none [9] true =
      (.error ⟨.gisProcessingError, some .valueError⟩, none) ∧
    (none : Option ReclassOut) = none := by
  constructor
  · exact (spec2proof_C6 true [⟨0, 1, 5⟩] none [9] true).1 rfl (by decide)
  · exact (spec2proof_C6 true [⟨0, 10, 1⟩] none [5] false).2
      ⟨.gisProcessingError, some .gisProcessingError⟩ none rfl

/-! ## Claims about clipping, resampling and reprojection -/

/-- Claim C2: for clip_raster_with_raster on a source and mask with
identical CRS and pixel grid and declared nodata values, every output
pixel whose corresponding mask pixel equals the mask nodata equals the
source nodata, and every other output pixel is identical to the
corresponding source pixel, in every band. -/
theorem spec2proof_C2 (src mask_src out : Raster) (snd mnd : ℚ)
    (hsrc : src.nodata = some snd) (hmnd : mask_src.nodata = some mnd)
    (h : clip_raster_with_raster src mask_src = .ok out)
    (b i : ℕ) (hb : b < src.bands.length)
    (hlen : (src.bands.getD b []).length = (mask_src.bands.headD []).length)
    (hi : i < (src.bands.getD b []).length) :
    ((mask_src.bands.headD []).getD i 0 = mnd →
      (out.bands.getD b []).getD i 0 = snd) ∧
    ((mask_src.bands.headD []).getD i 0 ≠ mnd →
      (out.bands.getD b []).getD i 0 = (src.bands.getD b []).getD i 0) := by
  unfold clip_raster_with_raster at h
  split at h
  · exact absurd h (by simp)
  · injection h with h2
    have key : (out.bands.getD b []).getD i 0 =
        if (mask_src.bands.headD []).getD i 0 = mnd then snd
        else (src.bands.getD b []).getD i 0 := by
      have hbands : out.bands = src.bands.map fun band =>
          List.zipWith
            (fun keep v =>
              if keep then v
              else match src.nodata with
                   | some nd => nd
                   | none => v)
            ((mask_src.bands.headD []).map fun m =>
              match mask_src.nodata with
              | some nd => decide (m ≠ nd)
              | none => true)
            band := by
        rw [← h2]
      rw [hbands, getD_map_lt _ src.bands b hb [],
        getD_zipWith_lt _ _ _ i
          (by rw [List.length_map, ← hlen]; exact hi) hi false 0 0,
        getD_map_lt _ (mask_src.bands.headD []) i
          (by rw [← hlen]; exact hi) 0,
        hmnd, hsrc]
      by_cases hm : (mask_src.bands.headD []).getD i 0 = mnd <;> simp [hm]
    constructor
    · intro hm
      rw [key, if_pos hm]
    · intro hm
      rw [key, if_neg hm]

theorem spec2proof_C2_witness :
    ((Raster.mk "EPSG:32643" (some (-1)) [[-1, 6]]).bands.getD 0 []).getD 0 0
        = -1 ∧
    ((Raster.mk "EPSG:32643" (some (-1)) [[-1, 6]]).bands.getD 0 []).getD 1 0
        = 6 := by
  constructor
  · exact (spec2proof_C2 ⟨"EPSG:32643", some (-1), [[5, 6]]⟩
      ⟨"EPSG:32643", some 0, [[0, 7]]⟩ ⟨"EPSG:32643", some (-1), [[-1, 6]]⟩
      (-1) 0 rfl rfl rfl 0 0 (by decide) rfl (by decide)).1 rfl
  · exact (spec2proof_C2 ⟨"EPSG:32643", some (-1), [[5, 6]]⟩
      ⟨"EPSG:32643", some 0, [[0, 7]]⟩ ⟨"EPSG:32643", some (-1), [[-1, 6]]⟩
      (-1) 0 rfl rfl rfl 0 1 (by decide) rfl (by decide)).2 (by decide)

/-- Claim C3, counterexample: resample_raster computes output dimensions by
Python `int()` truncation, not by rounding.  On a 3-by-3 source with scale
factor 1/2 the code produces a 1-by-1 output, while the claimed
`round(3 * 0.5) = 2`. -/
theorem rat_floor_eq_intFloor (q : ℚ) : Rat.floor q = ⌊q⌋ := by
  rw [Rat.floor_def', Rat.floor_def]

theorem pyInt_of_nonneg (q : ℚ) (h : 0 ≤ q) : pyInt q = ⌊q⌋ := by
  unfold pyInt
  rw [if_neg (not_lt.mpr h), rat_floor_eq_intFloor]

theorem spec2proof_C3_cx :
    resample_raster ⟨3, 3, ⟨1, 0, 0, 0, -1, 0⟩⟩ (1/2) =
      .ok ⟨1, 1, ⟨3, 0, 0, 0, -3, 0⟩⟩ ∧
    round ((3 : ℚ) * (1/2)) = 2 ∧ (1 : ℤ) ≠ 2 := by
  refine ⟨?_, ?_, by decide⟩
  · have h1 : pyInt ((3 : ℚ) * (1/2)) = 1 := by
      rw [pyInt_of_nonneg _ (by norm_num)]
      norm_num
    simp only [resample_raster, Nat.cast_ofNat]
    rw [h1, if_neg (by decide)]
    norm_num [Affine.mul, Affine.scale]
  · norm_num [round_eq]

/-- Claim C3, amended: for every resample_raster call with strictly
positive scale factor whose truncated output dimensions are at least one,
the output width is `int(source_width * scale_factor)` (truncation toward
zero, not rounding) and likewise for the height, computed independently per
axis; and the output transform scales pixel size inversely so the output
covers the same world extent: both the origin corner (0,0) and the
far corner (width, height) map to the same world points as in the
source. -/
theorem spec2proof_C3 (src : ResampleSrc) (sf : ℚ) (out : ResampleOut)
    (hpos : 0 < sf)
    (hw : 1 ≤ pyInt ((src.width : ℚ) * sf))
    (hh : 1 ≤ pyInt ((src.height : ℚ) * sf))
    (h : resample_raster src sf = .ok out) :
    out.width = pyInt ((src.width : ℚ) * sf) ∧
    out.height = pyInt ((src.height : ℚ) * sf) ∧
    out.transform.apply 0 0 = src.transform.apply 0 0 ∧
    out.transform.apply (out.width : ℚ) (out.height : ℚ) =
      src.transform.apply (src.width : ℚ) (src.height : ℚ) := by
  unfold resample_raster at h
  rw [if_neg (by rintro (h0 | h0) <;> omega)] at h
  injection h with h2
  have hnw : ((pyInt ((src.width : ℚ) * sf) : ℤ) : ℚ) ≠ 0 :=
    Int.cast_ne_zero.mpr (by omega)
  have hnh : ((pyInt ((src.height : ℚ) * sf) : ℤ) : ℚ) ≠ 0 :=
    Int.cast_ne_zero.mpr (by omega)
  refine ⟨by rw [← h2], by rw [← h2], ?_, ?_⟩
  · rw [← h2]
    simp only [Affine.apply, Affine.mul, Affine.scale, Prod.mk.injEq]
    constructor <;> ring
  · rw [← h2]
    simp only [Affine.apply, Affine.mul, Affine.scale, Prod.mk.injEq]
    constructor <;> field_simp

theorem spec2proof_C3_witness :
    (0 : ℚ) < 1/2 ∧
    (ResampleOut.mk 2 2 (Affine.mk 2 0 0 0 (-2) 0)).width =
      pyInt (((4 : ℕ) : ℚ) * (1/2)) := by
  have h1 : pyInt ((4 : ℚ) * (1/2)) = 2 := by
    rw [pyInt_of_nonneg _ (by norm_num)]
    norm_num
  have hrun : resample_raster ⟨4, 4, ⟨1, 0, 0, 0, -1, 0⟩⟩ (1/2) =
      .ok ⟨2, 2, ⟨2, 0, 0, 0, -2, 0⟩⟩ := by
    simp only [resample_raster, Nat.cast_ofNat]
    rw [h1, if_neg (by decide)]
    norm_num [Affine.mul, Affine.scale]
  refine ⟨by norm_num, ?_⟩
  exact (spec2proof_C3 ⟨4, 4, ⟨1, 0, 0, 0, -1, 0⟩⟩ (1/2)
    ⟨2, 2, ⟨2, 0, 0, 0, -2, 0⟩⟩ (by norm_num)
    (by rw [Nat.cast_ofNat, h1]; decide) (by rw [Nat.cast_ofNat, h1]; decide)
    hrun).1

/-- Claim C4: on a source and mask with differing CRS,
clip_raster_with_raster raises ProjectionError at line 55, but its own
blanket `except Exception` at line 73 catches it and re-raises a plain
GISProcessingError wrapping it, so the exception class that reaches the
caller is GISProcessingError, not ProjectionError (the spec documents a
hard ProjectionError).  No reprojection is attempted: the mismatch is
fatal. -/
theorem spec2proof_C4 :
    clip_raster_with_raster ⟨"EPSG:4326", some 0, [[1]]⟩
        ⟨"EPSG:3857", some 0, [[1]]⟩ =
      .error ⟨.gisProcessingError, some .projectionError⟩ ∧
    ExcCls.gisProcessingError ≠ ExcCls.projectionError :=
  ⟨rfl, by decide⟩

/-- Claim C7: for any two runs of reproject_raster on the same input and
target CRS that differ only in the resampling kernel, the output CRS,
transform, width and height are identical, whatever
calculate_default_transform and the per-band interpolation compute: the
kernel reaches only the interpolation of pixel values. -/
theorem spec2proof_C7
    (cdt : String → String → ℕ → ℕ → ℚ × ℚ × ℚ × ℚ → Affine × ℕ × ℕ)
    (rpb : Resampling → WarpSrc → Affine → String → ℕ → List ℚ)
    (src : WarpSrc) (target_crs : String) (m1 m2 : Resampling) :
    (reproject_raster cdt rpb src target_crs m1).crs =
      (reproject_raster cdt rpb src target_crs m2).crs ∧
    (reproject_raster cdt rpb src target_crs m1).transform =
      (reproject_raster cdt rpb src target_crs m2).transform ∧
    (reproject_raster cdt rpb src target_crs m1).width =
      (reproject_raster cdt rpb src target_crs m2).width ∧
    (reproject_raster cdt rpb src target_crs m1).height =
      (reproject_raster cdt rpb src target_crs m2).height := by
  rcases hcdt : cdt src.crs target_crs src.width src.height src.bounds with
    ⟨t, w, ht⟩
  simp [reproject_raster, hcdt]

/-! ## Claim about vector union -/

/-- Claim C8: every successful union_vectors call on two inputs produces
exactly count(A) + count(B) features (pure concatenation, no
deduplication), the combined CRS is the first non-null input CRS in input
order, and every processed input that carries a CRS carries exactly that
target CRS (an input with an undefined CRS is concatenated untouched, and
a later input with an undefined CRS makes the call fail instead of being
reprojected). -/
theorem spec2proof_C8 (A B out : GeoDataFrame)
    (h : union_vectors [A, B] = .ok out) :
    out.n_features = A.n_features + B.n_features ∧
    out.crs = A.crs.or B.crs ∧
    (∀ parts target_crs, unionLoop [A, B] none [] = .ok (parts, target_crs) →
      ∀ p ∈ parts, ∀ c, p.crs = some c → target_crs = some c) := by
  rcases hA : A.crs with _ | a
  · have hloop : unionLoop [A, B] none [] = .ok ([A, B], B.crs) := by
      simp [unionLoop, hA]
    unfold union_vectors at h
    rw [hloop] at h
    injection h with h2
    refine ⟨?_, ?_, ?_⟩
    · rw [← h2]
      simp
    · rw [← h2]
      simp
    · intro parts target_crs h2' p hp c hc
      rw [hloop] at h2'
      injection h2' with h3
      simp only [Prod.mk.injEq] at h3
      obtain ⟨h4, h5⟩ := h3
      subst h4
      subst h5
      simp only [List.mem_cons, List.not_mem_nil, or_false] at hp
      rcases hp with rfl | rfl
      · rw [hA] at hc
        exact absurd hc (by simp)
      · exact hc
  · rcases hB : B.crs with _ | b
    · exfalso
      have hloop : unionLoop [A, B] none [] =
          .error { cls := .valueError } := by
        simp [unionLoop, hA, hB, GeoDataFrame.to_crs]
      unfold union_vectors at h
      rw [hloop] at h
      exact absurd h (by simp)
    · by_cases hab : b = a
      · subst hab
        have hloop : unionLoop [A, B] none [] = .ok ([A, B], some b) := by
          simp [unionLoop, hA, hB]
        unfold union_vectors at h
        rw [hloop] at h
        injection h with h2
        refine ⟨?_, ?_, ?_⟩
        · rw [← h2]
          simp
        · rw [← h2]
          rfl
        · intro parts target_crs h2' p hp c hc
          rw [hloop] at h2'
          injection h2' with h3
          simp only [Prod.mk.injEq] at h3
          obtain ⟨h4, h5⟩ := h3
          subst h4
          subst h5
          simp only [List.mem_cons, List.not_mem_nil, or_false] at hp
          rcases hp with rfl | rfl
          · rw [hA] at hc
            exact hc
          · rw [hB] at hc
            exact hc
      · have hloop : unionLoop [A, B] none [] =
            .ok ([A, ⟨some a, B.n_features⟩], some a) := by
          simp [unionLoop, hA, hB, GeoDataFrame.to_crs, hab]
        unfold union_vectors at h
        rw [hloop] at h
        injection h with h2
        refine ⟨?_, ?_, ?_⟩
        · rw [← h2]
          simp
        · rw [← h2]
          rfl
        · intro parts target_crs h2' p hp c hc
          rw [hloop] at h2'
          injection h2' with h3
          simp only [Prod.mk.injEq] at h3
          obtain ⟨h4, h5⟩ := h3
          subst h4
          subst h5
          simp only [List.mem_cons, List.not_mem_nil, or_false] at hp
          rcases hp with rfl | rfl
          · rw [hA] at hc
            exact hc
          · exact hc

theorem spec2proof_C8_witness :
    (GeoDataFrame.mk (some "EPSG:4326") 5).n_features = 2 + 3 ∧
    (GeoDataFrame.mk (some "EPSG:4326") 5).crs =
      (Option.or (some "EPSG:4326") (some "EPSG:3857")) := by
  have h := spec2proof_C8 ⟨some "EPSG:4326", 2⟩ ⟨some "EPSG:3857", 3⟩
    ⟨some "EPSG:4326", 5⟩ rfl
  exact ⟨h.1, h.2.1⟩

/-! ## Claims about projection resolution and the exception hierarchy -/

theorem to_crs_ne_empty (p : ProjectionInfo) (s : String)
    (h : p.to_crs = some s) : s ≠ "" := by
  unfold ProjectionInfo.to_crs at h
  split at h
  · injection h with h2
    intro hempty
    rw [← h2] at hempty
    have h3 : ("EPSG:" ++ toString (p.epsg_code.getD 0)).length = 0 := by
      rw [hempty]
      rfl
    rw [String.length_append] at h3
    have h5 : ("EPSG:" : String).length = 5 := rfl
    omega
  · split at h
    · rename_i h1 h2
      rw [h] at h2
      simpa [pyTruthyStr] using h2
    · split at h
      · rename_i h1 h2 h3
        rw [h] at h3
        simpa [pyTruthyStr] using h3
      · exact absurd h (by simp)

/-- Claim C9, amended: ProjectionInfo.to_crs is a pure function of its
input; it returns "EPSG:CODE" when a nonzero authority code is populated,
else the raw proj-string, else the raw WKT string (empty strings being
falsy as in Python), and the null marker `None` — not the string
"unknown" — when none are populated, raising no error; feeding a canonical
result back through resolution (as a raw string) is idempotent and yields
the same string. -/
theorem spec2proof_C9 (p : ProjectionInfo) :
    (∀ c : ℤ, p.epsg_code = some c → c ≠ 0 →
        p.to_crs = some ("EPSG:" ++ toString c)) ∧
    (pyTruthyInt p.epsg_code = false → pyTruthyStr p.proj4_string = true →
        p.to_crs = p.proj4_string) ∧
    (pyTruthyInt p.epsg_code = false → pyTruthyStr p.proj4_string = false →
        pyTruthyStr p.wkt_string = true → p.to_crs = p.wkt_string) ∧
    (p.epsg_code = none → p.proj4_string = none → p.wkt_string = none →
        p.to_crs = none) ∧
    (∀ s, p.to_crs = some s →
        ProjectionInfo.to_crs ⟨none, some s, none, none⟩ = some s) := by
  refine ⟨?_, ?_, ?_, ?_, ?_⟩
  · intro c hc hc0
    unfold ProjectionInfo.to_crs
    rw [if_pos (by simp [pyTruthyInt, hc, hc0]), hc]
    rfl
  · intro h1 h2
    unfold ProjectionInfo.to_crs
    rw [if_neg (by simp [h1]), if_pos h2]
  · intro h1 h2 h3
    unfold ProjectionInfo.to_crs
    rw [if_neg (by simp [h1]), if_neg (by simp [h2]), if_pos h3]
  · intro h1 h2 h3
    unfold ProjectionInfo.to_crs
    rw [if_neg (by simp [pyTruthyInt, h1]),
      if_neg (by simp [pyTruthyStr, h2]),
      if_neg (by simp [pyTruthyStr, h3])]
  · intro s hs
    have hne : s ≠ "" := to_crs_ne_empty p s hs
    unfold ProjectionInfo.to_crs
    rw [if_neg (by simp [pyTruthyInt]), if_pos (by simp [pyTruthyStr, hne])]

theorem spec2proof_C9_witness :
    ProjectionInfo.to_crs ⟨some 4326, none, none, none⟩ =
      some "EPSG:4326" ∧
    ProjectionInfo.to_crs ⟨none, some "EPSG:4326", none, none⟩ =
      some "EPSG:4326" ∧
    ProjectionInfo.to_crs ⟨none, some "+proj=longlat +datum=WGS84", none,
        none⟩ = some "+proj=longlat +datum=WGS84" ∧
    ProjectionInfo.to_crs ⟨none, none, some "GEOGCRS[...]", none⟩ =
      some "GEOGCRS[...]" ∧
    ProjectionInfo.to_crs ⟨none, none, none, none⟩ = none := by
  refine ⟨?_, ?_, ?_, ?_, ?_⟩
  · exact (spec2proof_C9 ⟨some 4326, none, none, none⟩).1 4326 rfl
      (by decide)
  · exact (spec2proof_C9 ⟨some 4326, none, none, none⟩).2.2.2.2 "EPSG:4326"
      ((spec2proof_C9 ⟨some 4326, none, none, none⟩).1 4326 rfl (by decide))
  · exact (spec2proof_C9 ⟨none, some "+proj=longlat +datum=WGS84", none,
      none⟩).2.1 rfl (by decide)
  · exact (spec2proof_C9 ⟨none, none, some "GEOGCRS[...]", none⟩).2.2.1 rfl
      rfl (by decide)
  · exact (spec2proof_C9 ⟨none, none, none, none⟩).2.2.2.1 rfl rfl rfl

/-- Claim C9, counterexample to the "unknown" clause: with no field
populated, to_crs returns the null marker `None`, not the string
"unknown". -/
theorem spec2proof_C9_cx :
    ProjectionInfo.to_crs ⟨none, none, none, none⟩ = none ∧
    (none : Option String) ≠ some "unknown" :=
  ⟨rfl, by decide⟩

/-- Claim C10: each of the four specialized error kinds of exceptions.py
(ProjectionError, DataFormatError, GeometryError, FileAccessError) is a
subclass of GISProcessingError, so the kinds are not disjoint: a handler
for GISProcessingError catches every engine-raised error kind, and raising
a specialized kind still satisfies a contract documented as raising
GISProcessingError. -/
theorem spec2proof_C10 :
    ([ExcCls.projectionError, ExcCls.dataFormatError, ExcCls.geometryError,
        ExcCls.fileAccessError].all
      (fun c => c.subclassOf ExcCls.gisProcessingError)) = true ∧
    ([ExcCls.gisProcessingError, ExcCls.projectionError,
        ExcCls.dataFormatError, ExcCls.geometryError,
        ExcCls.fileAccessError].all
      (fun c => ExcCls.catches ExcCls.gisProcessingError c)) = true := by
  decide
